import Mathlib

/-!
Verification of the Sharkbite hourly dispatch simulation and financial
derivation engine (`sharkbite_engine/solar_calculator_logic.py` and
`sharkbite_engine/utils.py`), shallowly embedded over exact rational
arithmetic.  Python floats are modelled as `ℚ`; the 8760-entry numpy arrays
are modelled as functions `ℕ → ℚ` read on `Finset.range 8760`.
-/

namespace Sharkbite

/-- Inverter conversion efficiency, `INVERTER_EFF = 0.96` in `utils.py`. -/
def INVERTER_EFF : ℚ := 96 / 100

/-- Net-metering credit factor, `NET_METER_CREDIT_FACTOR = 0.75` in `utils.py`. -/
def NET_METER_CREDIT_FACTOR : ℚ := 75 / 100

/-- Base investment-tax-credit rate, `BASE_ITC_RATE = 0.30` in `utils.py`. -/
def BASE_ITC_RATE : ℚ := 30 / 100

/-- Corporate tax rate for commercial projects, `MACRS_TAX_RATE = 0.21` in `utils.py`. -/
def MACRS_TAX_RATE : ℚ := 21 / 100

/-- Scalar parameters of `run_hourly_dispatch_simulation`
(`solar_calculator_logic.py`, lines 120-129).  `battery_eff` defaults to
`0.90` exactly as in the Python signature. -/
structure DispatchParams where
  battery_kwh : ℚ
  inverter_size_kw : ℚ
  min_battery_reserve_pct : ℚ
  self_consumption_priority : Bool
  tou_enabled : Bool
  peak_hours : List ℕ
  battery_eff : ℚ := 9 / 10

/-- The five per-hour output samples the simulation records for one hour
(`import_kwh[hour]`, `export_kwh[hour]`, `solar_to_load[hour]`,
`solar_to_battery[hour]`, `battery_to_load[hour]`). -/
structure HourFlows where
  import_kwh : ℚ
  export_kwh : ℚ
  solar_to_load : ℚ
  solar_to_battery : ℚ
  battery_to_load : ℚ
deriving DecidableEq

/-- One iteration of the hourly loop of `run_hourly_dispatch_simulation`
(`solar_calculator_logic.py`, lines 149-209), translated clause by clause.
`L0` is `hourly_load[hour]`, `S0` is `hourly_solar[hour]`, `soc0` is the
state of charge entering the hour.  Returns the recorded flows of the hour
and the state of charge leaving the hour.

Python reference, in order: `inverter_output_ac = min(solar, inverter_size)`;
`clipped_dc_power = max(0, solar - inverter_size)`; step 1 charges
`charge = min(S_clipped + S_ac*INVERTER_EFF, battery_kwh - soc)` when that
pool is positive and `soc < battery_kwh`, adds `charge * battery_eff` to the
SOC and subtracts `charge / INVERTER_EFF` from `S_ac`; step 2 serves load
with `to_load = min(L, S_ac)`; step 3 exports the remaining `S_ac` when
(battery full and prioritising self-consumption) or when not prioritising
self-consumption; step 4 discharges `min(soc - min_soc, L / INVERTER_EFF)`
when load remains, `soc > min_soc` and the TOU/priority policy allows it;
step 5 imports the remaining load. -/
def dispatchStep (p : DispatchParams) (hour : ℕ) (L0 S0 soc0 : ℚ) :
    HourFlows × ℚ :=
  let min_soc_kwh := p.battery_kwh * (p.min_battery_reserve_pct / 100)
  let S_ac0 := min S0 p.inverter_size_kw
  let S_clipped := max 0 (S0 - p.inverter_size_kw)
  let is_peak_hour : Bool := decide (hour % 24 ∈ p.peak_hours)
  let available_solar_for_charge := S_clipped + S_ac0 * INVERTER_EFF
  let charge : ℚ :=
    if 0 < available_solar_for_charge ∧ soc0 < p.battery_kwh then
      min available_solar_for_charge (p.battery_kwh - soc0)
    else 0
  let soc1 := soc0 + charge * p.battery_eff
  let solar_to_battery := charge / INVERTER_EFF
  let S_ac1 := S_ac0 - charge / INVERTER_EFF
  let to_load := min L0 S_ac1
  let L1 := L0 - to_load
  let S_ac2 := S_ac1 - to_load
  let export_amt : ℚ :=
    if 0 < S_ac2 then
      if p.battery_kwh ≤ soc1 ∧ p.self_consumption_priority = true then S_ac2
      else if p.self_consumption_priority = false then S_ac2
      else 0
    else 0
  let discharge_decision : Bool :=
    (p.tou_enabled && is_peak_hour) ||
    (p.tou_enabled && p.self_consumption_priority && !is_peak_hour) ||
    (!p.tou_enabled && p.self_consumption_priority)
  let discharge_amount : ℚ :=
    if 0 < L1 ∧ min_soc_kwh < soc1 ∧ discharge_decision = true then
      min (soc1 - min_soc_kwh) (L1 / INVERTER_EFF)
    else 0
  let soc2 := soc1 - discharge_amount
  let battery_to_load := discharge_amount * INVERTER_EFF
  let L2 := L1 - discharge_amount * INVERTER_EFF
  let imp : ℚ := if 0 < L2 then L2 else 0
  (⟨imp, export_amt, to_load, solar_to_battery, battery_to_load⟩, soc2)

/-- State of charge entering hour `h` of `run_hourly_dispatch_simulation`;
`soc` is initialised to `0.0` before the loop (line 135) and threaded through
the hourly steps in strict order. -/
def socBefore (p : DispatchParams) (load solar : ℕ → ℚ) : ℕ → ℚ
  | 0 => 0
  | h + 1 => (dispatchStep p h (load h) (solar h) (socBefore p load solar h)).2

/-- The per-hour output samples of `run_hourly_dispatch_simulation` at hour `h`. -/
def flows (p : DispatchParams) (load solar : ℕ → ℚ) (h : ℕ) : HourFlows :=
  (dispatchStep p h (load h) (solar h) (socBefore p load solar h)).1

/-- State of charge at the end of hour `h`. -/
def socAfter (p : DispatchParams) (load solar : ℕ → ℚ) (h : ℕ) : ℚ :=
  socBefore p load solar (h + 1)

/-- Reserve floor `min_soc_kwh = battery_kwh * (min_battery_reserve_pct / 100.0)`
(`solar_calculator_logic.py`, line 142). -/
def min_soc_kwh (p : DispatchParams) : ℚ :=
  p.battery_kwh * (p.min_battery_reserve_pct / 100)

/-- Annual solar production, `np.sum(hourly_solar)` (line 212). -/
def total_solar_production (solar : ℕ → ℚ) : ℚ :=
  ∑ h in Finset.range 8760, solar h

/-- Total self-consumed solar,
`np.sum(solar_to_load) + np.sum(solar_to_battery)` (line 216). -/
def total_self_consumed_solar (p : DispatchParams) (load solar : ℕ → ℚ) : ℚ :=
  ∑ h in Finset.range 8760,
    ((flows p load solar h).solar_to_load + (flows p load solar h).solar_to_battery)

/-- The value stored under the key `self_consumption_rate_percent` in the
dictionary returned by `run_hourly_dispatch_simulation`: line 221 computes
`(total_self_consumed_solar / total_solar_production) * 100` (guarded to `0`
when production is not positive) and line 237 multiplies that value by `100`
again when building the returned dictionary. -/
def self_consumption_rate_percent (p : DispatchParams) (load solar : ℕ → ℚ) : ℚ :=
  (if 0 < total_solar_production solar then
      total_self_consumed_solar p load solar / total_solar_production solar * 100
    else 0) * 100

/-- Cost avoided by solar, `np.sum(hourly_solar_to_load * hourly_rates)`
(`calculate_final_financials`, line 281). -/
def cost_avoided_by_solar (stl rates : ℕ → ℚ) : ℚ :=
  ∑ h in Finset.range 8760, stl h * rates h

/-- Cost avoided by battery, `np.sum(hourly_battery_to_load * hourly_rates)`
(line 284). -/
def cost_avoided_by_battery (btl rates : ℕ → ℚ) : ℚ :=
  ∑ h in Finset.range 8760, btl h * rates h

/-- Annual export revenue,
`np.sum(hourly_export * hourly_rates * NET_METER_CREDIT_FACTOR)` (line 286). -/
def annual_export_revenue (hexport rates : ℕ → ℚ) : ℚ :=
  ∑ h in Finset.range 8760, hexport h * rates h * NET_METER_CREDIT_FACTOR

/-- Total annual savings (line 289): the sum of the three value streams. -/
def total_annual_savings (stl btl hexport rates : ℕ → ℚ) : ℚ :=
  cost_avoided_by_solar stl rates + cost_avoided_by_battery btl rates +
    annual_export_revenue hexport rates

/-- ITC amount, `itc_val = capex * BASE_ITC_RATE` (line 292). -/
def itc_val (capex : ℚ) : ℚ := capex * BASE_ITC_RATE

/-- MACRS benefit (lines 293-296): zero unless the user type is the string
`Commercial / Business`, in which case
`(capex - 0.5*itc_val) * 0.85 * MACRS_TAX_RATE`. -/
def macrs_val (capex : ℚ) (user_type : String) : ℚ :=
  if user_type = "Commercial / Business" then
    (capex - (1 / 2) * itc_val capex) * (85 / 100) * MACRS_TAX_RATE
  else 0

/-- Net cost, `net_cost = capex - itc_val - macrs_val` (line 298). -/
def net_cost (capex : ℚ) (user_type : String) : ℚ :=
  capex - itc_val capex - macrs_val capex user_type

/-- The value stored under `roi_percent_25_yr` (line 302):
`((total_annual_savings * 25 - net_cost) / net_cost) * 100 if net_cost > 0
else float('inf')`.  The `float('inf')` sentinel is modelled as `none`. -/
def roi_percent_25_yr (capex : ℚ) (user_type : String) (tas : ℚ) : Option ℚ :=
  if 0 < net_cost capex user_type then
    some ((tas * 25 - net_cost capex user_type) / net_cost capex user_type * 100)
  else none

/-- Peak/off-peak prices of one season entry of `TOU_SCHEDULE_CONFIG`. -/
structure SeasonRates where
  peak_rate : ℚ
  offpeak_rate : ℚ

/-- One tariff plan of `TOU_SCHEDULE_CONFIG` (`utils.py`, lines 42-72): the
optional `summer`, `winter` and `all_year` season entries, which day keys
appear in `periods.peak.days`, and the peak hour-of-day window. -/
structure TouPlan where
  summer : Option SeasonRates
  winter : Option SeasonRates
  all_year : Option SeasonRates
  peak_days_weekday : Bool
  peak_days_everyday : Bool
  peak_hours : List ℕ

/-- The `Residential E-TOU-C` plan: all-year rates 0.55 / 0.35, weekday peak
window 16-20 (4 PM to 9 PM). -/
def residentialETOUC : TouPlan :=
  ⟨none, none, some ⟨55 / 100, 35 / 100⟩, true, false, [16, 17, 18, 19, 20]⟩

/-- The `Ag Rate AG-4B (Summer Peak)` plan: summer 0.29802 / 0.16173, winter
0.16188 / 0.13657, weekday peak window 12-17 (12 PM to 6 PM). -/
def agRateAG4B : TouPlan :=
  ⟨some ⟨29802 / 100000, 16173 / 100000⟩, some ⟨16188 / 100000, 13657 / 100000⟩,
    none, true, false, [12, 13, 14, 15, 16, 17]⟩

/-- The `Ag Rate AG-5B (Summer Peak)` plan: summer 0.22184 / 0.09543, winter
0.11743 / 0.08633, weekday peak window 12-17. -/
def agRateAG5B : TouPlan :=
  ⟨some ⟨22184 / 100000, 9543 / 100000⟩, some ⟨11743 / 100000, 8633 / 100000⟩,
    none, true, false, [12, 13, 14, 15, 16, 17]⟩

/-- The tariff catalog `TOU_SCHEDULE_CONFIG` (`utils.py`, lines 42-72). -/
def TOU_SCHEDULE_CONFIG : List (String × TouPlan) :=
  [("Residential E-TOU-C", residentialETOUC),
   ("Ag Rate AG-4B (Summer Peak)", agRateAG4B),
   ("Ag Rate AG-5B (Summer Peak)", agRateAG5B)]

/-- Dictionary lookup `TOU_SCHEDULE_CONFIG[rate_plan]`, `none` when the name
is not a key of the catalog. -/
def catalogLookup (name : String) : Option TouPlan :=
  (TOU_SCHEDULE_CONFIG.find? (fun pr => pr.1 == name)).map Prod.snd

/-- Month lengths of the non-leap year 2025. -/
def monthLengths : List ℕ := [31, 28, 31, 30, 31, 30, 31, 31, 30, 31, 30, 31]

/-- Walks the month lengths to convert a 0-based day-of-year into a 1-based
(month, day-of-month) pair. -/
def monthDayAux : List ℕ → ℕ → ℕ → ℕ × ℕ
  | [], d, m => (m, d + 1)
  | len :: rest, d, m => if d < len then (m, d + 1) else monthDayAux rest (d - len) (m + 1)

/-- Calendar (month, day-of-month) of the 0-based day-of-year `d` in 2025,
as produced by `pd.date_range("2025-01-01", periods=8760, freq="h")`. -/
def monthDay (d : ℕ) : ℕ × ℕ := monthDayAux monthLengths d 1

/-- The fixed federal-holiday list `HOLIDAYS_2025` (`utils.py`, lines 36-40),
as (month, day) pairs of 2025. -/
def HOLIDAYS_2025 : List (ℕ × ℕ) :=
  [(1, 1), (1, 20), (2, 17), (5, 26), (7, 4), (9, 1), (11, 11), (11, 27), (12, 25)]

/-- Pandas `ts.dayofweek` (Monday = 0) of hour index `i`; 2025-01-01 is a
Wednesday, day-of-week 2. -/
def dayOfWeek (i : ℕ) : ℕ := (i / 24 + 2) % 7

/-- The loop's `is_weekday = ts.dayofweek < 5` (`utils.py`, line 259). -/
def is_weekday (i : ℕ) : Bool := decide (dayOfWeek i < 5)

/-- The loop's `is_holiday = ts.date() in HOLIDAYS_2025` (line 260). -/
def is_holiday (i : ℕ) : Bool := decide (monthDay (i / 24) ∈ HOLIDAYS_2025)

/-- Month (1-12) of hour index `i`. -/
def monthOfHour (i : ℕ) : ℕ := (monthDay (i / 24)).1

/-- Season resolution of the loop (lines 242-244): May to October is summer. -/
def is_summer (i : ℕ) : Bool := decide (5 ≤ monthOfHour i ∧ monthOfHour i ≤ 10)

/-- Season-rate resolution (`utils.py`, lines 246-252): use the resolved
season's entry if the plan defines it, otherwise fall back to `all_year`;
`none` models the `ValueError` raised when neither exists. -/
def resolveSeason (plan : TouPlan) (summer : Bool) : Option SeasonRates :=
  match (if summer then plan.summer else plan.winter) with
  | some r => some r
  | none => plan.all_year

/-- Rate assigned to hour index `i` by the body of the schedule loop
(`utils.py`, lines 240-272): default to off-peak, switch to peak exactly when
the hour-of-day is in the peak window and either (the plan's peak days
include "weekday", the day is a weekday and not a holiday) or the plan's
peak days include "everyday". -/
def hourRate (plan : TouPlan) (i : ℕ) : Option ℚ :=
  (resolveSeason plan (is_summer i)).map fun sr =>
    let peakHit := decide (i % 24 ∈ plan.peak_hours) &&
      ((plan.peak_days_weekday && is_weekday i && !(is_holiday i)) ||
        plan.peak_days_everyday)
    if peakHit = true then sr.peak_rate else sr.offpeak_rate

/-- Entry `i` of the array produced by `generate_hourly_rate_schedule`
(`utils.py`, lines 227-274): a rate plan missing from the catalog falls back
to the flat `np.full(8760, 0.18)` array; otherwise the TOU loop body runs. -/
def generate_hourly_rate_schedule (rate_plan : String) (i : ℕ) : Option ℚ :=
  match catalogLookup rate_plan with
  | none => some (18 / 100)
  | some plan => hourRate plan i

/-- The full 8760-entry array produced by `generate_hourly_rate_schedule`. -/
def rate_schedule_list (rate_plan : String) : List (Option ℚ) :=
  (List.range 8760).map (generate_hourly_rate_schedule rate_plan)

/-- Return value of `geocode_address_nominatim` (`solar_calculator_logic.py`,
lines 17-49): either a `(lat, lon)` pair of floats or a bare error string
(the function returns the error message itself, not a tagged record). -/
inductive GeoReturn
  | coords (lat lon : ℚ)
  | err (s : String)
deriving DecidableEq

/-- Values a results-dictionary slot can hold after the tuple unpacking in
`perform_solar_battery_calculations` (line 361): a float, or — when a
2-character error string is unpacked — a single character. -/
inductive PyVal
  | num (q : ℚ)
  | chr (c : Char)
deriving DecidableEq

/-- Outcome of the geocoding stage of `perform_solar_battery_calculations`
(lines 360-363): the pipeline either crashes with a `ValueError`, returns the
partial results dictionary early (carrying the `geo_error` slot), or proceeds
to the production fetch. -/
inductive Orch1Outcome
  | valueError
  | earlyReturn (geo_error : Option String)
  | proceed (lat lon : PyVal) (geo_error : Option String)
deriving DecidableEq

/-- The geocoding stage of `perform_solar_battery_calculations` (lines
360-363), translated literally.  The statement
`results["lat"], results["lon"] = geocode_address_nominatim(...)` tuple-unpacks
the return value: a `(lat, lon)` pair unpacks into the two slots; a string
unpacks character-by-character, succeeding only when it has exactly two
characters and raising `ValueError` otherwise.  `results["geo_error"]` is
initialised to `None` (line 352) and never assigned before the check
`if results["geo_error"]: return results` (line 362), so the early return is
taken only if `geo_error` is truthy — which it never is. -/
def orchestratorGeoStage (g : GeoReturn) : Orch1Outcome :=
  match g with
  | .coords la lo =>
      let geo_error : Option String := none
      if geo_error.isSome then .earlyReturn geo_error
      else .proceed (.num la) (.num lo) geo_error
  | .err s =>
      match s.data with
      | [c1, c2] =>
          let geo_error : Option String := none
          if geo_error.isSome then .earlyReturn geo_error
          else .proceed (.chr c1) (.chr c2) geo_error
      | _ => .valueError

/-- The guard clause of `geocode_address_nominatim` (lines 23-24): an empty
address returns the bare string `Address not provided.` before any network
request; `net` abstracts the outcome of the Nominatim request for non-empty
addresses. -/
def geocode_address_nominatim (address : String) (net : String → GeoReturn) :
    GeoReturn :=
  if address.isEmpty then .err "Address not provided." else net address

/-- Concrete dispatch parameters for the inverter-clipping scenario: 5 kWh
battery, 50 kW inverter, no reserve, no TOU, no self-consumption priority. -/
def pClip : DispatchParams := ⟨5, 50, 0, false, false, [], 9 / 10⟩

/-- Concrete dispatch parameters for the self-consumption-rate scenario:
no battery, 10 kW inverter. -/
def pRate : DispatchParams := ⟨0, 10, 0, false, false, [], 9 / 10⟩

/-- Load series for the self-consumption-rate scenario: 10 kWh in hour 0. -/
def loadRate : ℕ → ℚ := fun h => if h = 0 then 10 else 0

/-- Solar series for the self-consumption-rate scenario: 10 kWh in hour 0. -/
def solarRate : ℕ → ℚ := fun h => if h = 0 then 10 else 0

/-- Concrete dispatch parameters used by witnesses: 10 kWh battery, 10 kW
inverter, 20 % reserve, self-consumption priority, TOU with the default
evening peak window. -/
def pWit : DispatchParams := ⟨10, 10, 20, true, true, [16, 17, 18, 19, 20], 9 / 10⟩

/-- Constant witness load series. -/
def loadWit : ℕ → ℚ := fun _ => 1

/-- Constant witness solar series. -/
def solarWit : ℕ → ℚ := fun _ => 2

/-- All-zero hourly series. -/
def zeroSeries : ℕ → ℚ := fun _ => 0

/-- Helper: multiplying through the division by `INVERTER_EFF`. -/
lemma mul_inverter_eff_le {a b : ℚ} (h : a ≤ b / INVERTER_EFF) :
    a * INVERTER_EFF ≤ b := by
  have h96 : (0 : ℚ) < INVERTER_EFF := by norm_num [INVERTER_EFF]
  have := mul_le_mul_of_nonneg_right h (le_of_lt h96)
  rwa [div_mul_cancel₀] at this
  exact ne_of_gt h96

/-- Arithmetic core of the per-hour load accounting: serving load from the
post-charge AC solar `S1`, then discharging under the reserve floor `ms`,
then importing the remainder, always accounts for exactly `L0`. -/
lemma hour_balance_core (L0 S1 ms soc1 : ℚ) (dcond : Prop) [Decidable dcond] :
    min L0 S1 +
      (if 0 < L0 - min L0 S1 ∧ ms < soc1 ∧ dcond then
          min (soc1 - ms) ((L0 - min L0 S1) / INVERTER_EFF) else 0) * INVERTER_EFF +
      (if 0 < L0 - min L0 S1 -
          (if 0 < L0 - min L0 S1 ∧ ms < soc1 ∧ dcond then
            min (soc1 - ms) ((L0 - min L0 S1) / INVERTER_EFF) else 0) * INVERTER_EFF
        then L0 - min L0 S1 -
          (if 0 < L0 - min L0 S1 ∧ ms < soc1 ∧ dcond then
            min (soc1 - ms) ((L0 - min L0 S1) / INVERTER_EFF) else 0) * INVERTER_EFF
        else 0) = L0 := by
  have htle : min L0 S1 ≤ L0 := min_le_left _ _
  have hdale : (if 0 < L0 - min L0 S1 ∧ ms < soc1 ∧ dcond then
      min (soc1 - ms) ((L0 - min L0 S1) / INVERTER_EFF) else 0) * INVERTER_EFF ≤
      L0 - min L0 S1 := by
    split_ifs with h
    · exact mul_inverter_eff_le (min_le_right _ _)
    · simp only [zero_mul]
      linarith
  by_cases hd : 0 < L0 - min L0 S1 ∧ ms < soc1 ∧ dcond
  · rw [if_pos hd] at hdale ⊢
    split_ifs with h2
    · ring
    · linarith
  · rw [if_neg hd] at hdale ⊢
    simp only [zero_mul, sub_zero, add_zero] at hdale ⊢
    split_ifs with h2
    · ring
    · linarith

/-- Per-step load accounting: the recorded direct-solar, battery-discharge
and grid-import samples of an hour sum exactly to the hour's load, for any
parameter values and any entering state of charge. -/
lemma dispatchStep_load_balance (p : DispatchParams) (hour : ℕ)
    (L0 S0 soc0 : ℚ) :
    (dispatchStep p hour L0 S0 soc0).1.solar_to_load +
      (dispatchStep p hour L0 S0 soc0).1.battery_to_load +
      (dispatchStep p hour L0 S0 soc0).1.import_kwh = L0 := by
  simp only [dispatchStep]
  exact hour_balance_core L0 _ _ _ _

/-- C2: for every hour h of the simulation, with non-negative hourly_load and
hourly_solar inputs, the outputs of run_hourly_dispatch_simulation satisfy
solar_to_load[h] + battery_to_load[h] + import_kwh[h] == hourly_load[h]
exactly: every unit of load in each hour is accounted for by exactly one of
direct solar, battery discharge, or grid import. -/
theorem C2_hourly_load_accounting (p : DispatchParams) (load solar : ℕ → ℚ)
    (hL : ∀ h, 0 ≤ load h) (hS : ∀ h, 0 ≤ solar h) (h : ℕ) (hh : h < 8760) :
    (flows p load solar h).solar_to_load + (flows p load solar h).battery_to_load +
      (flows p load solar h).import_kwh = load h :=
  dispatchStep_load_balance p h (load h) (solar h) (socBefore p load solar h)

/-- Witness for C2 at the concrete parameters `pWit` and constant series. -/
theorem C2_hourly_load_accounting_witness :
    (flows pWit loadWit solarWit 5).solar_to_load +
      (flows pWit loadWit solarWit 5).battery_to_load +
      (flows pWit loadWit solarWit 5).import_kwh = loadWit 5 :=
  C2_hourly_load_accounting pWit loadWit solarWit
    (fun _ => by norm_num [loadWit]) (fun _ => by norm_num [solarWit]) 5 (by norm_num)

/-- Discharge-phase core: subtracting the discharge amount keeps the SOC
inside `[0, B]`, and above the reserve floor whenever a discharge occurred. -/
lemma discharge_core (B ms soc1 L1 : ℚ) (dcond : Prop) [Decidable dcond]
    (hms : 0 ≤ ms) (h0 : 0 ≤ soc1) (h1 : soc1 ≤ B) :
    0 ≤ soc1 - (if 0 < L1 ∧ ms < soc1 ∧ dcond then
        min (soc1 - ms) (L1 / INVERTER_EFF) else 0) ∧
      soc1 - (if 0 < L1 ∧ ms < soc1 ∧ dcond then
        min (soc1 - ms) (L1 / INVERTER_EFF) else 0) ≤ B ∧
      (0 < (if 0 < L1 ∧ ms < soc1 ∧ dcond then
          min (soc1 - ms) (L1 / INVERTER_EFF) else 0) * INVERTER_EFF →
        ms ≤ soc1 - (if 0 < L1 ∧ ms < soc1 ∧ dcond then
          min (soc1 - ms) (L1 / INVERTER_EFF) else 0)) := by
  split_ifs with h
  · have hle : min (soc1 - ms) (L1 / INVERTER_EFF) ≤ soc1 - ms := min_le_left _ _
    have hge : 0 ≤ min (soc1 - ms) (L1 / INVERTER_EFF) :=
      le_min (by linarith [h.2.1]) (le_of_lt (div_pos h.1 (by norm_num [INVERTER_EFF])))
    exact ⟨by linarith, by linarith, fun _ => by linarith⟩
  · refine ⟨by linarith, by linarith, fun hcon => absurd hcon (by norm_num)⟩

/-- Charge-phase core: the charge amount is capped at the battery headroom,
so (with `0 ≤ battery_eff ≤ 1`) the post-charge SOC stays inside `[0, B]`. -/
lemma charge_core (B avail eff soc0 : ℚ) (heff0 : 0 ≤ eff) (heff1 : eff ≤ 1)
    (h0 : 0 ≤ soc0) (h1 : soc0 ≤ B) :
    0 ≤ soc0 + (if 0 < avail ∧ soc0 < B then min avail (B - soc0) else 0) * eff ∧
      soc0 + (if 0 < avail ∧ soc0 < B then min avail (B - soc0) else 0) * eff ≤ B := by
  split_ifs with h
  · have hle : min avail (B - soc0) ≤ B - soc0 := min_le_right _ _
    have hge : 0 ≤ min avail (B - soc0) := le_min (le_of_lt h.1) (by linarith [h.2])
    have hup : min avail (B - soc0) * eff ≤ min avail (B - soc0) :=
      mul_le_of_le_one_right hge heff1
    have hdn : 0 ≤ min avail (B - soc0) * eff := mul_nonneg hge heff0
    exact ⟨by linarith, by linarith⟩
  · simp only [zero_mul, add_zero]
    exact ⟨h0, h1⟩

/-- Per-step SOC invariant: starting an hour with `0 ≤ soc ≤ battery_kwh`
(for `0 ≤ battery_kwh`, a reserve percentage `≥ 0` and `0 ≤ battery_eff ≤ 1`),
the hour ends with `0 ≤ soc ≤ battery_kwh`, and ends at or above the reserve
floor whenever the hour recorded a battery discharge. -/
lemma dispatchStep_soc_invariant (p : DispatchParams) (hour : ℕ)
    (L0 S0 soc0 : ℚ) (hB : 0 ≤ p.battery_kwh)
    (hpct : 0 ≤ p.min_battery_reserve_pct)
    (heff0 : 0 ≤ p.battery_eff) (heff1 : p.battery_eff ≤ 1)
    (h0 : 0 ≤ soc0) (h1 : soc0 ≤ p.battery_kwh) :
    0 ≤ (dispatchStep p hour L0 S0 soc0).2 ∧
      (dispatchStep p hour L0 S0 soc0).2 ≤ p.battery_kwh ∧
      (0 < (dispatchStep p hour L0 S0 soc0).1.battery_to_load →
        min_soc_kwh p ≤ (dispatchStep p hour L0 S0 soc0).2) := by
  have hms : 0 ≤ min_soc_kwh p := by
    have : (0 : ℚ) ≤ p.min_battery_reserve_pct / 100 := by positivity
    exact mul_nonneg hB this
  have hchg := charge_core p.battery_kwh
    (max 0 (S0 - p.inverter_size_kw) + min S0 p.inverter_size_kw * INVERTER_EFF)
    p.battery_eff soc0 heff0 heff1 h0 h1
  simp only [dispatchStep]
  exact discharge_core p.battery_kwh (min_soc_kwh p) _ _ _ hms hchg.1 hchg.2

/-- Run-level SOC bounds, by induction over the hours. -/
lemma socBefore_bounds (p : DispatchParams) (load solar : ℕ → ℚ)
    (hB : 0 ≤ p.battery_kwh) (hpct : 0 ≤ p.min_battery_reserve_pct)
    (heff0 : 0 ≤ p.battery_eff) (heff1 : p.battery_eff ≤ 1) :
    ∀ h, 0 ≤ socBefore p load solar h ∧ socBefore p load solar h ≤ p.battery_kwh
  | 0 => ⟨le_refl 0, hB⟩
  | h + 1 => by
      have ih := socBefore_bounds p load solar hB hpct heff0 heff1 h
      have := dispatchStep_soc_invariant p h (load h) (solar h)
        (socBefore p load solar h) hB hpct heff0 heff1 ih.1 ih.2
      exact ⟨this.1, this.2.1⟩

/-- C3: loop invariant of run_hourly_dispatch_simulation: for
battery_kwh >= 0, min_battery_reserve_pct in [0,100], and non-negative load
and solar series, the battery state of charge satisfies
0 <= soc <= battery_kwh at the end of every one of the 8760 hours, and
additionally soc >= min_soc_kwh (= battery_kwh * min_battery_reserve_pct / 100)
at the end of any hour in which a discharge occurred. -/
theorem C3_soc_invariant (p : DispatchParams) (load solar : ℕ → ℚ)
    (hB : 0 ≤ p.battery_kwh) (hpct0 : 0 ≤ p.min_battery_reserve_pct)
    (hpct100 : p.min_battery_reserve_pct ≤ 100)
    (heff : p.battery_eff = 9 / 10)
    (hL : ∀ h, 0 ≤ load h) (hS : ∀ h, 0 ≤ solar h) (h : ℕ) (hh : h < 8760) :
    (0 ≤ socAfter p load solar h ∧ socAfter p load solar h ≤ p.battery_kwh) ∧
      (0 < (flows p load solar h).battery_to_load →
        min_soc_kwh p ≤ socAfter p load solar h) := by
  have heff0 : 0 ≤ p.battery_eff := by rw [heff]; norm_num
  have heff1 : p.battery_eff ≤ 1 := by rw [heff]; norm_num
  have ih := socBefore_bounds p load solar hB hpct0 heff0 heff1 h
  have hstep := dispatchStep_soc_invariant p h (load h) (solar h)
    (socBefore p load solar h) hB hpct0 heff0 heff1 ih.1 ih.2
  exact ⟨⟨hstep.1, hstep.2.1⟩, hstep.2.2⟩

/-- Witness for C3 at the concrete parameters `pWit` and constant series,
hour 0. -/
theorem C3_soc_invariant_witness :
    ((0 ≤ socAfter pWit loadWit solarWit 0 ∧
        socAfter pWit loadWit solarWit 0 ≤ pWit.battery_kwh) ∧
      (0 < (flows pWit loadWit solarWit 0).battery_to_load →
        min_soc_kwh pWit ≤ socAfter pWit loadWit solarWit 0)) :=
  C3_soc_invariant pWit loadWit solarWit (by norm_num [pWit])
    (by norm_num [pWit]) (by norm_num [pWit]) (by norm_num [pWit])
    (fun _ => by norm_num [loadWit]) (fun _ => by norm_num [solarWit]) 0 (by norm_num)

/-- Charge-phase strict bound: with charge efficiency `9/10 < 1`, a battery
entering the hour strictly below capacity leaves the charge phase strictly
below capacity. -/
lemma charge_strict_core (B avail soc0 : ℚ) (hlt : soc0 < B) :
    soc0 + (if 0 < avail ∧ soc0 < B then min avail (B - soc0) else 0) * (9 / 10) < B := by
  split_ifs with h
  · have hle : min avail (B - soc0) ≤ B - soc0 := min_le_right _ _
    have hge : 0 ≤ min avail (B - soc0) := le_min (le_of_lt h.1) (by linarith [h.2])
    linarith
  · simpa using hlt

/-- Discharge never increases the SOC. -/
lemma discharge_le_core (ms soc1 L1 : ℚ) (dcond : Prop) [Decidable dcond] :
    soc1 - (if 0 < L1 ∧ ms < soc1 ∧ dcond then
      min (soc1 - ms) (L1 / INVERTER_EFF) else 0) ≤ soc1 := by
  split_ifs with h
  · have : 0 ≤ min (soc1 - ms) (L1 / INVERTER_EFF) :=
      le_min (by linarith [h.2.1]) (le_of_lt (div_pos h.1 (by norm_num [INVERTER_EFF])))
    linarith
  · simp

/-- Export-phase core: with self-consumption priority on and the post-charge
SOC strictly below capacity, both export branches are skipped. -/
lemma export_core (B soc1 S2 : ℚ) (prio : Bool) (hlt : soc1 < B)
    (hprio : prio = true) :
    (if 0 < S2 then
        if B ≤ soc1 ∧ prio = true then S2
        else if prio = false then S2 else 0
      else 0) = 0 := by
  split_ifs with h1 h2 h3
  · exact absurd h2.1 (not_le_of_lt hlt)
  · rw [hprio] at h3
    exact absurd h3 (by simp)
  · rfl
  · rfl

/-- Per-step strict-SOC and export suppression: with the default charge
efficiency `0.90` and self-consumption priority, an hour entered strictly
below battery capacity ends strictly below capacity and records zero export. -/
lemma dispatchStep_no_export (p : DispatchParams) (hour : ℕ) (L0 S0 soc0 : ℚ)
    (heff : p.battery_eff = 9 / 10)
    (hprio : p.self_consumption_priority = true)
    (hlt : soc0 < p.battery_kwh) :
    (dispatchStep p hour L0 S0 soc0).2 < p.battery_kwh ∧
      (dispatchStep p hour L0 S0 soc0).1.export_kwh = 0 := by
  have hsoc1 := charge_strict_core p.battery_kwh
    (max 0 (S0 - p.inverter_size_kw) + min S0 p.inverter_size_kw * INVERTER_EFF)
    soc0 hlt
  simp only [dispatchStep, heff]
  constructor
  · exact lt_of_le_of_lt (discharge_le_core _ _ _ _) hsoc1
  · exact export_core p.battery_kwh _ _ p.self_consumption_priority hsoc1 hprio

/-- Run-level strict SOC bound under self-consumption priority. -/
lemma socBefore_lt (p : DispatchParams) (load solar : ℕ → ℚ)
    (hB : 0 < p.battery_kwh) (heff : p.battery_eff = 9 / 10)
    (hprio : p.self_consumption_priority = true) :
    ∀ h, socBefore p load solar h < p.battery_kwh
  | 0 => hB
  | h + 1 =>
      (dispatchStep_no_export p h (load h) (solar h) (socBefore p load solar h)
        heff hprio (socBefore_lt p load solar hB heff hprio h)).1

/-- C10 (implicit): in run_hourly_dispatch_simulation with battery_kwh > 0 and
battery_eff = 0.90, the state of charge remains strictly below battery_kwh at
every hour; consequently, when self_consumption_priority is True, the
battery-full export branch is unreachable and export_kwh is the all-zero
series for the entire run — all leftover AC solar is curtailed in every hour,
regardless of how much solar exceeds load. -/
theorem C10_priority_export_suppressed (p : DispatchParams)
    (load solar : ℕ → ℚ) (hB : 0 < p.battery_kwh)
    (heff : p.battery_eff = 9 / 10)
    (hprio : p.self_consumption_priority = true) (h : ℕ) (hh : h < 8760) :
    socAfter p load solar h < p.battery_kwh ∧
      (flows p load solar h).export_kwh = 0 := by
  have hstep := dispatchStep_no_export p h (load h) (solar h)
    (socBefore p load solar h) heff hprio (socBefore_lt p load solar hB heff hprio h)
  exact ⟨hstep.1, hstep.2⟩

/-- Witness for C10 at the concrete parameters `pWit` and constant series,
hour 3: heavy surplus solar is still never exported. -/
theorem C10_priority_export_suppressed_witness :
    socAfter pWit loadWit solarWit 3 < pWit.battery_kwh ∧
      (flows pWit loadWit solarWit 3).export_kwh = 0 :=
  C10_priority_export_suppressed pWit loadWit solarWit
    (by norm_num [pWit]) (by norm_num [pWit]) (by norm_num [pWit]) 3 (by norm_num)

/-- C8: for every dispatch result and hourly rate array,
calculate_final_financials returns total_annual_savings equal to the sum over
hours of solar_to_load[h]*rate[h], plus the sum of battery_to_load[h]*rate[h],
plus the sum of export[h]*rate[h]*0.75 (the net-metering credit factor); in
particular, with an all-zero export series, total_annual_savings equals the
two avoided-cost sums exactly. -/
theorem C8_total_annual_savings_formula (stl btl hexport rates : ℕ → ℚ) :
    total_annual_savings stl btl hexport rates =
      (∑ h in Finset.range 8760, stl h * rates h) +
        (∑ h in Finset.range 8760, btl h * rates h) +
        (∑ h in Finset.range 8760, hexport h * rates h * (75 / 100)) ∧
      ((∀ h, h < 8760 → hexport h = 0) →
        total_annual_savings stl btl hexport rates =
          (∑ h in Finset.range 8760, stl h * rates h) +
            (∑ h in Finset.range 8760, btl h * rates h)) := by
  constructor
  · rfl
  · intro hz
    have hexp0 : (∑ h in Finset.range 8760, hexport h * rates h * NET_METER_CREDIT_FACTOR) = 0 := by
      refine Finset.sum_eq_zero fun h hmem => ?_
      rw [hz h (Finset.mem_range.mp hmem)]
      ring
    unfold total_annual_savings annual_export_revenue
    rw [hexp0, add_zero]
    rfl

/-- Witness for C8: with the all-zero export series the savings reduce to
the two avoided-cost sums. -/
theorem C8_total_annual_savings_formula_witness :
    total_annual_savings loadWit solarWit zeroSeries loadWit =
      (∑ h in Finset.range 8760, loadWit h * loadWit h) +
        (∑ h in Finset.range 8760, solarWit h * loadWit h) :=
  (C8_total_annual_savings_formula loadWit solarWit zeroSeries loadWit).2
    (fun _ _ => rfl)

/-- C5 counterexample: at capex = 0 with the Homeowner user type and an
all-zero dispatch result, net_cost = 0 and total_annual_savings = 0, yet
roi_percent_25_yr is the infinite sentinel — so the sentinel is not
characterised by "net_cost <= 0 and total_annual_savings > 0" as the claim
states. -/
theorem C5_counterexample :
    ¬ ((roi_percent_25_yr 0 "Homeowner"
          (total_annual_savings zeroSeries zeroSeries zeroSeries zeroSeries) = none) ↔
        (net_cost 0 "Homeowner" ≤ 0 ∧
          0 < total_annual_savings zeroSeries zeroSeries zeroSeries zeroSeries)) := by
  have htas : total_annual_savings zeroSeries zeroSeries zeroSeries zeroSeries = 0 := by
    simp [total_annual_savings, cost_avoided_by_solar, cost_avoided_by_battery,
      annual_export_revenue, zeroSeries]
  have hnc : net_cost 0 "Homeowner" = 0 := by
    rw [net_cost, macrs_val, if_neg (by decide)]
    norm_num [itc_val]
  intro hiff
  have h1 : roi_percent_25_yr 0 "Homeowner"
      (total_annual_savings zeroSeries zeroSeries zeroSeries zeroSeries) = none := by
    rw [roi_percent_25_yr, if_neg]
    rw [hnc]
    norm_num
  have h2 := hiff.mp h1
  rw [htas] at h2
  exact absurd h2.2 (by norm_num)

/-- C5 (amended): in calculate_final_financials, roi_percent_25_yr equals
((total_annual_savings * 25 - net_cost) / net_cost) * 100 whenever
net_cost > 0, and is the infinite sentinel exactly when net_cost <= 0
(regardless of the sign of total_annual_savings). -/
theorem C5_roi_formula (capex : ℚ) (user_type : String)
    (stl btl hexport rates : ℕ → ℚ) :
    (0 < net_cost capex user_type →
      roi_percent_25_yr capex user_type (total_annual_savings stl btl hexport rates) =
        some ((total_annual_savings stl btl hexport rates * 25 -
          net_cost capex user_type) / net_cost capex user_type * 100)) ∧
      (roi_percent_25_yr capex user_type
          (total_annual_savings stl btl hexport rates) = none ↔
        net_cost capex user_type ≤ 0) := by
  constructor
  · intro h
    rw [roi_percent_25_yr, if_pos h]
  · rw [roi_percent_25_yr]
    split_ifs with h
    · constructor
      · intro hx
        exact absurd hx (by simp)
      · intro hle
        linarith
    · exact ⟨fun _ => le_of_not_lt h, fun _ => rfl⟩

/-- Witness for C5 at capex = 100, Homeowner, all-zero dispatch series:
net_cost = 70 > 0 and the finite ROI formula applies. -/
theorem C5_roi_formula_witness :
    roi_percent_25_yr 100 "Homeowner"
        (total_annual_savings zeroSeries zeroSeries zeroSeries zeroSeries) =
      some ((total_annual_savings zeroSeries zeroSeries zeroSeries zeroSeries * 25 -
        net_cost 100 "Homeowner") / net_cost 100 "Homeowner" * 100) :=
  (C5_roi_formula 100 "Homeowner" zeroSeries zeroSeries zeroSeries zeroSeries).1
    (by rw [net_cost, macrs_val, if_neg (by decide)]
        norm_num [itc_val, BASE_ITC_RATE])

/-- C7 (code divergence): a geocoding failure does NOT produce a partial
result bundle with geo_error set.  For the concrete failing input of an empty
address the geocoder returns the bare error string `Address not provided.`,
whose tuple unpacking into `results["lat"], results["lon"]` raises a
`ValueError` (21 characters cannot unpack into 2 slots); and for every error
string whatsoever the stage never takes the early return, because
`results["geo_error"]` is never assigned before the guard reads it. -/
theorem C7_geocode_failure_not_propagated :
    (∀ net : String → GeoReturn,
        orchestratorGeoStage (geocode_address_nominatim "" net) =
          Orch1Outcome.valueError) ∧
      (∀ s : String, ∀ e : Option String,
        orchestratorGeoStage (GeoReturn.err s) ≠ Orch1Outcome.earlyReturn e) := by
  refine ⟨fun net => ?_, fun s e => ?_⟩
  · rfl
  · rcases s with ⟨l⟩
    rcases l with _ | ⟨c1, _ | ⟨c2, _ | ⟨c3, t⟩⟩⟩ <;>
      simp [orchestratorGeoStage]

/-- C1 (code divergence): in the hour with solar 60 kWh, inverter 50 kW,
load 50 kWh, battery 5 kWh and SOC 0, the clipped DC power is 10, the charge
drawn is 5 (well inside the clipped DC), yet the AC-available solar serving
load is reduced from min(60, 50) = 50 to 1075/24 by the unconditional
subtraction of charge / INVERTER_EFF, so 125/24 kWh is imported even though
the inverter's full AC output covers the load.  The claim that the
AC-available-solar pool is unchanged whenever the charge does not exceed the
clipped DC power is therefore false on the code. -/
theorem C1_clipped_charge_consumes_ac_solar :
    max 0 ((60 : ℚ) - pClip.inverter_size_kw) = 10 ∧
      min (60 : ℚ) pClip.inverter_size_kw = 50 ∧
      (dispatchStep pClip 0 50 60 0).1.solar_to_battery * INVERTER_EFF = 5 ∧
      (dispatchStep pClip 0 50 60 0).1.solar_to_load = 1075 / 24 ∧
      (dispatchStep pClip 0 50 60 0).1.import_kwh = 125 / 24 := by
  refine ⟨by norm_num [pClip], by norm_num [pClip], ?_, ?_, ?_⟩ <;>
    norm_num [dispatchStep, pClip, INVERTER_EFF, min_soc_kwh]

/-- A zero-load, zero-solar hour records all-zero flows and leaves the SOC
unchanged (for a non-negative inverter size). -/
lemma dispatchStep_zero (p : DispatchParams) (hour : ℕ) (soc0 : ℚ)
    (hinv : 0 ≤ p.inverter_size_kw) :
    dispatchStep p hour 0 0 soc0 = (⟨0, 0, 0, 0, 0⟩, soc0) := by
  have h1 : min (0 : ℚ) p.inverter_size_kw = 0 := min_eq_left hinv
  have h2 : max (0 : ℚ) (0 - p.inverter_size_kw) = 0 := max_eq_left (by linarith)
  simp only [dispatchStep, h1, h2]
  norm_num

/-- Hours outside the support of the load and solar series record all-zero
flows. -/
lemma flows_zero (p : DispatchParams) (load solar : ℕ → ℚ)
    (hinv : 0 ≤ p.inverter_size_kw) (h : ℕ) (hl : load h = 0) (hs : solar h = 0) :
    flows p load solar h = ⟨0, 0, 0, 0, 0⟩ := by
  unfold flows
  rw [hl, hs, dispatchStep_zero p h _ hinv]

/-- C4 (code divergence): with 10 kWh of solar and 10 kWh of load in hour 0
(and nothing elsewhere), all solar is self-consumed, so the self-consumption
fraction is 1 and the claimed percentage is 100 — but the value returned
under self_consumption_rate_percent is 10000, because line 221 already
multiplies the fraction by 100 and line 237 multiplies by 100 a second time. -/
theorem C4_self_consumption_rate_double_scaled :
    self_consumption_rate_percent pRate loadRate solarRate = 10000 := by
  have hsolar : total_solar_production solarRate = 10 := by
    unfold total_solar_production solarRate
    rw [Finset.sum_ite_eq' (Finset.range 8760) 0 (fun _ => (10 : ℚ))]
    norm_num
  have hf0 : (flows pRate loadRate solarRate 0).solar_to_load = 10 ∧
      (flows pRate loadRate solarRate 0).solar_to_battery = 0 := by
    constructor <;>
      norm_num [flows, socBefore, dispatchStep, pRate, loadRate, solarRate,
        INVERTER_EFF]
  have hself : total_self_consumed_solar pRate loadRate solarRate = 10 := by
    unfold total_self_consumed_solar
    have hpt : ∀ h ∈ Finset.range 8760,
        ((flows pRate loadRate solarRate h).solar_to_load +
          (flows pRate loadRate solarRate h).solar_to_battery) =
          (if h = 0 then (10 : ℚ) else 0) := by
      intro h _
      by_cases h0 : h = 0
      · subst h0
        rw [hf0.1, hf0.2, if_pos rfl]
        norm_num
      · rw [if_neg h0, flows_zero pRate loadRate solarRate (by norm_num [pRate]) h
          (by simp [loadRate, h0]) (by simp [solarRate, h0])]
        norm_num
    rw [Finset.sum_congr rfl hpt,
      Finset.sum_ite_eq' (Finset.range 8760) 0 (fun _ => (10 : ℚ))]
    norm_num
  unfold self_consumption_rate_percent
  rw [hsolar, hself]
  norm_num

/-- The fallback branch of generate_hourly_rate_schedule: any name missing
from the catalog yields exactly the flat 0.18 array, nothing else. -/
lemma rate_schedule_fallback (name : String)
    (hname : catalogLookup name = none) :
    rate_schedule_list name = List.replicate 8760 (some (18 / 100)) := by
  refine List.eq_replicate_iff.mpr ⟨by simp [rate_schedule_list], ?_⟩
  intro b hb
  simp only [rate_schedule_list, List.mem_map, List.mem_range] at hb
  obtain ⟨a, _, rfl⟩ := hb
  simp [generate_hourly_rate_schedule, hname]

/-- C6 counterexample: for the out-of-catalog tariff name
`Commercial B-20 Tariff`, the entire return value of
generate_hourly_rate_schedule is the bare flat rate array
`np.full(8760, 0.18)` — a plain 8760-entry list of rate values with no
accompanying flag or error component whatsoever, so the fallback is NOT
signalled to the caller by anything other than the rate values themselves,
refuting the claim's distinguishable-flag conjunct. -/
theorem C6_counterexample :
    rate_schedule_list "Commercial B-20 Tariff" =
      List.replicate 8760 (some (18 / 100)) :=
  rate_schedule_fallback "Commercial B-20 Tariff" rfl

/-- C6 (amended): for every tariff name not present in the catalog,
generate_hourly_rate_schedule returns a flat default-rate (0.18) 8760-entry
array; the fallback result carries no flag or error type and is
distinguishable from a catalog result only by its rate values. -/
theorem C6_fallback_flat_default (name : String)
    (hname : catalogLookup name = none) :
    rate_schedule_list name = List.replicate 8760 (some (18 / 100)) :=
  rate_schedule_fallback name hname

/-- Witness for C6 at the concrete out-of-catalog name `Business EV Rate`. -/
theorem C6_fallback_flat_default_witness :
    rate_schedule_list "Business EV Rate" =
      List.replicate 8760 (some (18 / 100)) :=
  C6_fallback_flat_default "Business EV Rate" rfl

/-- On a holiday the peak branch of the schedule loop cannot fire for a plan
whose peak period has no "everyday" day key, so the hour gets the resolved
season's off-peak rate. -/
lemma hourRate_holiday (plan : TouPlan) (i : ℕ)
    (hev : plan.peak_days_everyday = false) (hh : is_holiday i = true) :
    hourRate plan i = (resolveSeason plan (is_summer i)).map SeasonRates.offpeak_rate := by
  unfold hourRate
  cases hres : resolveSeason plan (is_summer i) with
  | none => rfl
  | some sr => simp [hh, hev]

/-- C9: for every tariff in the catalog and every date in the fixed 2025
federal-holiday list that falls on a weekday, every hour of that date whose
hour-of-day lies inside the tariff's configured peak window is assigned the
resolved season's off-peak rate (never the peak rate) by
generate_hourly_rate_schedule. -/
theorem C9_holiday_weekday_offpeak (name : String) (plan : TouPlan)
    (hplan : catalogLookup name = some plan) (i : ℕ) (hi : i < 8760)
    (hhol : is_holiday i = true) (hwk : is_weekday i = true)
    (hpeak : i % 24 ∈ plan.peak_hours) :
    ∃ sr, resolveSeason plan (is_summer i) = some sr ∧
      generate_hourly_rate_schedule name i = some sr.offpeak_rate := by
  have hgen : generate_hourly_rate_schedule name i = hourRate plan i := by
    rw [generate_hourly_rate_schedule, hplan]
  obtain ⟨pr, hfind, hsnd⟩ := Option.map_eq_some'.mp hplan
  have hpr := List.mem_of_find?_eq_some hfind
  simp only [TOU_SCHEDULE_CONFIG, List.mem_cons, List.not_mem_nil, or_false] at hpr
  have hev : plan.peak_days_everyday = false := by
    rcases hpr with h | h | h <;> (rw [← hsnd, h]; rfl)
  have hsome : ∃ sr, resolveSeason plan (is_summer i) = some sr := by
    rcases hpr with h | h | h <;> rw [← hsnd, h] <;> cases is_summer i <;>
      exact ⟨_, rfl⟩
  obtain ⟨sr, hsr⟩ := hsome
  refine ⟨sr, hsr, ?_⟩
  rw [hgen, hourRate_holiday plan i hev hhol, hsr]
  rfl

/-- Witness for C9: hour index 16 is 4 PM of New Year's Day 2025 (a
Wednesday), which lies in the E-TOU-C peak window 16-20 yet resolves to the
off-peak rate. -/
theorem C9_holiday_weekday_offpeak_witness :
    ∃ sr, resolveSeason residentialETOUC (is_summer 16) = some sr ∧
      generate_hourly_rate_schedule "Residential E-TOU-C" 16 =
        some sr.offpeak_rate :=
  C9_holiday_weekday_offpeak "Residential E-TOU-C" residentialETOUC rfl 16
    (by norm_num) (by decide) (by decide) (by decide)

end Sharkbite
